import Mathlib

/-!
Verification development for the iambic Morse keyer decision core
(`docs/state_machine.py`).  The Python classes are shallowly embedded:
enumerations become inductive types, `KeyerConfig` and `KeyerRuntime`
become structures, and each mutating method becomes a pure state
transformer `KeyerRuntime → KeyerRuntime`.  Millisecond quantities,
speeds and percentages (Python floats/ints) are modelled as rationals,
so all arithmetic is exact and every predicate is decidable.
-/

namespace Keyer

/-- `IambicMode` from the source: `A` (no bonus element on release),
`B` (opposite bonus element on squeeze release). -/
inductive IambicMode where
  | A
  | B
  deriving DecidableEq

/-- `MemoryMode` from the source: which paddle presses may be latched
during an element. -/
inductive MemoryMode where
  | NONE
  | DOT_ONLY
  | DAH_ONLY
  | DOT_AND_DAH
  deriving DecidableEq

/-- `SqueezeMode` from the source: `LIVE` evaluates the squeeze in real
time, `SNAPSHOT` evaluates it "as it was at release". -/
inductive SqueezeMode where
  | LIVE
  | SNAPSHOT
  deriving DecidableEq

/-- `Element` from the source: the two Morse elements. -/
inductive Element where
  | DIT
  | DAH
  deriving DecidableEq

/-- `State` from the source: the four FSM states. -/
inductive State where
  | IDLE
  | SEND_DIT
  | SEND_DAH
  | INTER_ELEMENT_GAP
  deriving DecidableEq

/-- `PaddleCombo` from the source: classification of the two paddle
booleans. -/
inductive PaddleCombo where
  | NONE
  | DIT_ONLY
  | DAH_ONLY
  | BOTH
  deriving DecidableEq

/-- `KeyerConfig` from the source: the six configuration fields stored by
`KeyerConfig.__init__`. -/
structure KeyerConfig where
  wpm : ℚ
  iambic_mode : IambicMode
  memory_mode : MemoryMode
  squeeze_mode : SqueezeMode
  mem_block_start_pct : ℚ
  mem_block_end_pct : ℚ
  deriving DecidableEq

/-- `KeyerConfig.__init__` from the source: it only stores the six
arguments, performing no validation of any of them (in particular none
on `wpm`). -/
def KeyerConfig.make (wpm : ℚ) (iambic_mode : IambicMode)
    (memory_mode : MemoryMode) (squeeze_mode : SqueezeMode)
    (mem_block_start_pct : ℚ) (mem_block_end_pct : ℚ) : KeyerConfig :=
  { wpm := wpm, iambic_mode := iambic_mode, memory_mode := memory_mode,
    squeeze_mode := squeeze_mode, mem_block_start_pct := mem_block_start_pct,
    mem_block_end_pct := mem_block_end_pct }

/-- `KeyerConfig.dit_duration_ms` from the source: `1200.0 / wpm`. -/
def KeyerConfig.dit_duration_ms (c : KeyerConfig) : ℚ :=
  1200 / c.wpm

/-- `KeyerConfig.dah_duration_ms` from the source: `3.0 * dit_duration_ms()`. -/
def KeyerConfig.dah_duration_ms (c : KeyerConfig) : ℚ :=
  3 * c.dit_duration_ms

/-- `KeyerConfig.gap_duration_ms` from the source: one dit. -/
def KeyerConfig.gap_duration_ms (c : KeyerConfig) : ℚ :=
  c.dit_duration_ms

/-- `KeyerRuntime` from the source: the mutable FSM state.  The Python
`deque` is modelled as a `List` (append on the right, pop on the left). -/
structure KeyerRuntime where
  cfg : KeyerConfig
  state : State
  current_element : Option Element
  current_element_total_ms : ℚ
  current_element_elapsed_ms : ℚ
  gap_total_ms : ℚ
  gap_elapsed_ms : ℚ
  element_progress_pct : ℚ
  queue : List Element
  dot_requested : Bool
  dah_requested : Bool
  dit_pressed : Bool
  dah_pressed : Bool
  squeeze_seen_this_element : Bool
  last_valid_combo : PaddleCombo
  deriving DecidableEq

/-- `KeyerRuntime.__init__` from the source: the freshly-constructed
runtime bound to a config. -/
def KeyerRuntime.init (cfg : KeyerConfig) : KeyerRuntime :=
  { cfg := cfg
    state := State.IDLE
    current_element := none
    current_element_total_ms := 0
    current_element_elapsed_ms := 0
    gap_total_ms := 0
    gap_elapsed_ms := 0
    element_progress_pct := 0
    queue := []
    dot_requested := false
    dah_requested := false
    dit_pressed := false
    dah_pressed := false
    squeeze_seen_this_element := false
    last_valid_combo := PaddleCombo.NONE }

/-- `KeyerRuntime.get_combo_now` from the source: classify the two raw
paddle booleans. -/
def KeyerRuntime.get_combo_now (r : KeyerRuntime) : PaddleCombo :=
  if r.dit_pressed && r.dah_pressed then PaddleCombo.BOTH
  else if r.dit_pressed && !r.dah_pressed then PaddleCombo.DIT_ONLY
  else if r.dah_pressed && !r.dit_pressed then PaddleCombo.DAH_ONLY
  else PaddleCombo.NONE

/-- `KeyerRuntime.update_paddles` from the source: store the new paddle
booleans and maintain `last_valid_combo` according to the squeeze mode. -/
def KeyerRuntime.update_paddles (r : KeyerRuntime) (dit dah : Bool) :
    KeyerRuntime :=
  let prev_combo := r.get_combo_now
  let r1 := { r with dit_pressed := dit, dah_pressed := dah }
  let new_combo := r1.get_combo_now
  if r1.cfg.squeeze_mode = SqueezeMode.SNAPSHOT then
    if prev_combo ≠ new_combo then { r1 with last_valid_combo := prev_combo }
    else r1
  else
    { r1 with last_valid_combo := new_combo }

/-- `KeyerRuntime._start_element` from the source: begin transmitting an
element, resetting the per-element counters and the squeeze flag (the
memory latches are deliberately left untouched). -/
def KeyerRuntime.start_element (r : KeyerRuntime) (element : Element) :
    KeyerRuntime :=
  let r1 := { r with current_element := some element }
  let r2 :=
    if element = Element.DIT then
      { r1 with current_element_total_ms := r1.cfg.dit_duration_ms,
                state := State.SEND_DIT }
    else
      { r1 with current_element_total_ms := r1.cfg.dah_duration_ms,
                state := State.SEND_DAH }
  { r2 with current_element_elapsed_ms := 0,
            element_progress_pct := 0,
            squeeze_seen_this_element := false }

/-- `KeyerRuntime._start_gap` from the source: begin the inter-element
gap. -/
def KeyerRuntime.start_gap (r : KeyerRuntime) : KeyerRuntime :=
  { r with gap_total_ms := r.cfg.gap_duration_ms,
           gap_elapsed_ms := 0,
           state := State.INTER_ELEMENT_GAP }

/-- `KeyerRuntime._check_memory_and_squeeze_during_element` from the
source: recompute the progress percentage, record a squeeze, and latch
the opposite element when allowed by the memory mode and the valid
window. -/
def KeyerRuntime.check_memory_and_squeeze_during_element
    (r : KeyerRuntime) : KeyerRuntime :=
  let pct : ℚ :=
    if r.current_element_total_ms > 0 then
      100 * r.current_element_elapsed_ms / r.current_element_total_ms
    else 0
  let r1 := { r with element_progress_pct := pct }
  let combo := r1.get_combo_now
  let r2 :=
    if combo = PaddleCombo.BOTH then
      { r1 with squeeze_seen_this_element := true }
    else r1
  if r2.cfg.memory_mode = MemoryMode.NONE then r2
  else
    if ¬ (r2.element_progress_pct ≥ r2.cfg.mem_block_start_pct ∧
          r2.element_progress_pct ≤ 100 - r2.cfg.mem_block_end_pct) then r2
    else
      let r3 :=
        if r2.state = State.SEND_DIT ∧
            (combo = PaddleCombo.DAH_ONLY ∨ combo = PaddleCombo.BOTH) ∧
            (r2.cfg.memory_mode = MemoryMode.DAH_ONLY ∨
             r2.cfg.memory_mode = MemoryMode.DOT_AND_DAH) then
          { r2 with dah_requested := true }
        else r2
      if r3.state = State.SEND_DAH ∧
          (combo = PaddleCombo.DIT_ONLY ∨ combo = PaddleCombo.BOTH) ∧
          (r3.cfg.memory_mode = MemoryMode.DOT_ONLY ∨
           r3.cfg.memory_mode = MemoryMode.DOT_AND_DAH) then
        { r3 with dot_requested := true }
      else r3

/-- The `bonus_element` local computed at the top of
`KeyerRuntime._finish_element_and_enter_gap` in the source: the Mode-B
bonus element, if any. -/
def KeyerRuntime.bonus_element_of (r : KeyerRuntime) : Option Element :=
  if r.cfg.iambic_mode = IambicMode.B then
    let ref_combo :=
      if r.cfg.squeeze_mode = SqueezeMode.LIVE then r.get_combo_now
      else r.last_valid_combo
    if r.squeeze_seen_this_element = true ∧ ref_combo ≠ PaddleCombo.BOTH then
      some (if r.current_element = some Element.DIT then Element.DAH
            else Element.DIT)
    else none
  else none

/-- `KeyerRuntime._finish_element_and_enter_gap` from the source: compute
the Mode-B bonus, consume the memory latches into the queue (DIT first,
then DAH), append the bonus last, and start the gap. -/
def KeyerRuntime.finish_element_and_enter_gap (r : KeyerRuntime) :
    KeyerRuntime :=
  let bonus_element := r.bonus_element_of
  let r1 :=
    if r.dot_requested then
      { r with queue := r.queue ++ [Element.DIT], dot_requested := false }
    else r
  let r2 :=
    if r1.dah_requested then
      { r1 with queue := r1.queue ++ [Element.DAH], dah_requested := false }
    else r1
  let r3 :=
    match bonus_element with
    | some b => { r2 with queue := r2.queue ++ [b] }
    | none => r2
  r3.start_gap

/-- `KeyerRuntime.tick` from the source: advance the FSM by `dt_ms`
milliseconds.  The final branch mirrors the source's defensive fallback
for an unknown state (unreachable with the four-state enumeration). -/
def KeyerRuntime.tick (r : KeyerRuntime) (dt_ms : ℚ) : KeyerRuntime :=
  if r.state = State.IDLE then
    let combo := r.get_combo_now
    if combo = PaddleCombo.DIT_ONLY then r.start_element Element.DIT
    else if combo = PaddleCombo.DAH_ONLY then r.start_element Element.DAH
    else if combo = PaddleCombo.BOTH then r.start_element Element.DIT
    else r
  else if r.state = State.SEND_DIT ∨ r.state = State.SEND_DAH then
    let r1 :=
      { r with current_element_elapsed_ms :=
          r.current_element_elapsed_ms + dt_ms }
    if r1.current_element_elapsed_ms < r1.current_element_total_ms then
      r1.check_memory_and_squeeze_during_element
    else
      r1.finish_element_and_enter_gap
  else if r.state = State.INTER_ELEMENT_GAP then
    let r1 := { r with gap_elapsed_ms := r.gap_elapsed_ms + dt_ms }
    if r1.gap_elapsed_ms < r1.gap_total_ms then r1
    else
      match r1.queue with
      | e :: rest => ({ r1 with queue := rest }).start_element e
      | [] =>
        let combo := r1.get_combo_now
        if combo = PaddleCombo.DIT_ONLY then r1.start_element Element.DIT
        else if combo = PaddleCombo.DAH_ONLY then r1.start_element Element.DAH
        else if combo = PaddleCombo.BOTH then
          r1.start_element
            (if r1.current_element = some Element.DIT then Element.DAH
             else Element.DIT)
        else
          { r1 with state := State.IDLE
                    current_element := none
                    current_element_total_ms := 0
                    current_element_elapsed_ms := 0
                    gap_total_ms := 0
                    gap_elapsed_ms := 0
                    element_progress_pct := 0
                    squeeze_seen_this_element := false
                    queue := [] }
  else
    { r with state := State.IDLE
             queue := []
             current_element := none
             current_element_elapsed_ms := 0
             current_element_total_ms := 0
             gap_elapsed_ms := 0
             gap_total_ms := 0
             squeeze_seen_this_element := false
             element_progress_pct := 0 }


lemma tick_idle_none (r : KeyerRuntime) (dt : ℚ) (hs : r.state = State.IDLE)
    (hc : r.get_combo_now = PaddleCombo.NONE) : r.tick dt = r := by
  simp [KeyerRuntime.tick, hs, hc]

/-- Claim C5: `update_paddles` maintains `last_valid_combo` according to the
squeeze policy: under SNAPSHOT it is set to the pre-call combo exactly when
the combo changed and is untouched otherwise; under LIVE it is set
unconditionally to the new combo. -/
theorem update_paddles_last_valid_combo_policy (r : KeyerRuntime)
    (dit dah : Bool) :
    (r.cfg.squeeze_mode = SqueezeMode.SNAPSHOT →
      (r.update_paddles dit dah).last_valid_combo =
        (if r.get_combo_now ≠
             ({ r with dit_pressed := dit, dah_pressed := dah } :
               KeyerRuntime).get_combo_now
         then r.get_combo_now else r.last_valid_combo))
    ∧ (r.cfg.squeeze_mode = SqueezeMode.LIVE →
      (r.update_paddles dit dah).last_valid_combo =
        ({ r with dit_pressed := dit, dah_pressed := dah } :
          KeyerRuntime).get_combo_now) := by
  constructor <;> intro h <;>
    simp [KeyerRuntime.update_paddles, h] <;> split_ifs <;> simp_all

def cfgSnapA : KeyerConfig :=
  KeyerConfig.make 20 IambicMode.A MemoryMode.NONE SqueezeMode.SNAPSHOT 15 15

/-- Witness for C5: a SNAPSHOT runtime sees its `last_valid_combo` keep the
pre-change combo after a NONE→BOTH edge. -/
theorem update_paddles_last_valid_combo_policy_witness :
    (KeyerRuntime.init cfgSnapA).cfg.squeeze_mode = SqueezeMode.SNAPSHOT ∧
    ((KeyerRuntime.init cfgSnapA).update_paddles true true).last_valid_combo =
      PaddleCombo.NONE :=
  ⟨rfl,
    ((update_paddles_last_valid_combo_policy
        (KeyerRuntime.init cfgSnapA) true true).1 rfl).trans (by decide)⟩

/-- Claim C6: from IDLE, a tick starts DIT on DIT_ONLY, DAH on DAH_ONLY,
DIT on BOTH (squeeze-from-rest tie-break), and with combo NONE it leaves
the runtime completely unchanged for any number of ticks. -/
theorem idle_tick_behavior (r : KeyerRuntime) (dt : ℚ)
    (hs : r.state = State.IDLE) :
    (r.get_combo_now = PaddleCombo.DIT_ONLY →
        r.tick dt = r.start_element Element.DIT)
    ∧ (r.get_combo_now = PaddleCombo.DAH_ONLY →
        r.tick dt = r.start_element Element.DAH)
    ∧ (r.get_combo_now = PaddleCombo.BOTH →
        r.tick dt = r.start_element Element.DIT)
    ∧ (r.get_combo_now = PaddleCombo.NONE →
        ∀ dts : List ℚ, dts.foldl KeyerRuntime.tick r = r) := by
  refine ⟨?_, ?_, ?_, ?_⟩ <;> intro hc
  · simp [KeyerRuntime.tick, hs, hc]
  · simp [KeyerRuntime.tick, hs, hc]
  · simp [KeyerRuntime.tick, hs, hc]
  · intro dts
    induction dts with
    | nil => rfl
    | cons d ds ih => rw [List.foldl_cons, tick_idle_none r d hs hc, ih]

def cfgLiveB : KeyerConfig :=
  KeyerConfig.make 20 IambicMode.B MemoryMode.DOT_AND_DAH SqueezeMode.LIVE 15 15

/-- Witness for C6: a fresh runtime with only the dit paddle pressed starts
a DIT on the next tick, and a fresh untouched runtime is unchanged by three
idle ticks. -/
theorem idle_tick_behavior_witness :
    ({ KeyerRuntime.init cfgLiveB with dit_pressed := true } :
        KeyerRuntime).state = State.IDLE ∧
    ({ KeyerRuntime.init cfgLiveB with dit_pressed := true } :
        KeyerRuntime).tick 5 =
      ({ KeyerRuntime.init cfgLiveB with dit_pressed := true } :
        KeyerRuntime).start_element Element.DIT ∧
    [(1 : ℚ), 2, 3].foldl KeyerRuntime.tick (KeyerRuntime.init cfgLiveB) =
      KeyerRuntime.init cfgLiveB :=
  ⟨rfl,
    (idle_tick_behavior _ 5 rfl).1 rfl,
    (idle_tick_behavior (KeyerRuntime.init cfgLiveB) 0 rfl).2.2.2 rfl
      [(1 : ℚ), 2, 3]⟩

/-- Claim C7 concerns fail-fast validation of `wpm ≤ 0` at construction.
The source constructor stores the fields verbatim with no check, so a
config with `wpm = 0` or `wpm = -5` is produced as usual and a negative
element duration reaches the timing model (for `wpm = 0` the Python code
raises `ZeroDivisionError` only at the first duration call, inside the
running FSM, not at construction). -/
theorem keyer_config_construction_unvalidated :
    (KeyerConfig.make 0 IambicMode.B MemoryMode.DOT_AND_DAH
        SqueezeMode.LIVE 15 15).wpm = 0
    ∧ (KeyerConfig.make (-5) IambicMode.B MemoryMode.DOT_AND_DAH
        SqueezeMode.LIVE 15 15).wpm = -5
    ∧ (KeyerConfig.make (-5) IambicMode.B MemoryMode.DOT_AND_DAH
        SqueezeMode.LIVE 15 15).dit_duration_ms < 0 := by
  refine ⟨rfl, rfl, ?_⟩
  norm_num [KeyerConfig.make, KeyerConfig.dit_duration_ms]

/-- Claim C8: for every positive `wpm` the timing model yields
`dit = 1200/wpm`, `dah = 3·dit`, `gap = dit` (and the dit duration is
positive). -/
theorem timing_model_durations (c : KeyerConfig) (h : 0 < c.wpm) :
    c.dit_duration_ms = 1200 / c.wpm
    ∧ c.dah_duration_ms = 3 * c.dit_duration_ms
    ∧ c.gap_duration_ms = c.dit_duration_ms
    ∧ 0 < c.dit_duration_ms := by
  refine ⟨rfl, rfl, rfl, ?_⟩
  exact div_pos (by norm_num) h

lemma cfgLiveB_dit : cfgLiveB.dit_duration_ms = 60 := by
  norm_num [cfgLiveB, KeyerConfig.make, KeyerConfig.dit_duration_ms]

lemma cfgLiveB_dah : cfgLiveB.dah_duration_ms = 180 := by
  norm_num [cfgLiveB, KeyerConfig.make, KeyerConfig.dah_duration_ms,
    KeyerConfig.dit_duration_ms]

/-- Witness for C8 at `wpm = 20`: the durations are 60 ms, 180 ms, 60 ms. -/
theorem timing_model_durations_witness :
    0 < cfgLiveB.wpm ∧ cfgLiveB.dit_duration_ms = 60 ∧
    cfgLiveB.dah_duration_ms = 180 ∧ cfgLiveB.gap_duration_ms = 60 :=
  ⟨by norm_num [cfgLiveB, KeyerConfig.make],
    (timing_model_durations cfgLiveB
        (by norm_num [cfgLiveB, KeyerConfig.make])).1.trans
      (by rw [show cfgLiveB.wpm = 20 from rfl]; norm_num),
    cfgLiveB_dah,
    (timing_model_durations cfgLiveB (by norm_num [cfgLiveB, KeyerConfig.make])).2.2.1.trans cfgLiveB_dit⟩


lemma finish_queue_eq (r : KeyerRuntime) :
    (r.finish_element_and_enter_gap).queue =
      r.queue ++ (if r.dot_requested then [Element.DIT] else [])
        ++ (if r.dah_requested then [Element.DAH] else [])
        ++ (r.bonus_element_of).toList := by
  cases hdot : r.dot_requested <;> cases hdah : r.dah_requested <;>
    cases hb : r.bonus_element_of <;>
      simp [KeyerRuntime.finish_element_and_enter_gap, KeyerRuntime.start_gap,
        hdot, hdah, hb]

lemma finish_dot (r : KeyerRuntime) :
    (r.finish_element_and_enter_gap).dot_requested = false := by
  cases hdot : r.dot_requested <;> cases hdah : r.dah_requested <;>
    cases hb : r.bonus_element_of <;>
      simp [KeyerRuntime.finish_element_and_enter_gap, KeyerRuntime.start_gap,
        hdot, hdah, hb]

lemma finish_dah (r : KeyerRuntime) :
    (r.finish_element_and_enter_gap).dah_requested = false := by
  cases hdot : r.dot_requested <;> cases hdah : r.dah_requested <;>
    cases hb : r.bonus_element_of <;>
      simp [KeyerRuntime.finish_element_and_enter_gap, KeyerRuntime.start_gap,
        hdot, hdah, hb]

lemma tick_send_finish (r : KeyerRuntime) (dt : ℚ)
    (hs : r.state = State.SEND_DIT ∨ r.state = State.SEND_DAH)
    (hend : r.current_element_total_ms ≤ r.current_element_elapsed_ms + dt) :
    r.tick dt =
      ({ r with current_element_elapsed_ms :=
          r.current_element_elapsed_ms + dt } :
        KeyerRuntime).finish_element_and_enter_gap := by
  rcases hs with h | h <;> simp [KeyerRuntime.tick, h, not_lt.mpr hend]

lemma tick_send_continue (r : KeyerRuntime) (dt : ℚ)
    (hs : r.state = State.SEND_DIT ∨ r.state = State.SEND_DAH)
    (hlt : r.current_element_elapsed_ms + dt < r.current_element_total_ms) :
    r.tick dt =
      ({ r with current_element_elapsed_ms :=
          r.current_element_elapsed_ms + dt } :
        KeyerRuntime).check_memory_and_squeeze_during_element := by
  rcases hs with h | h <;> simp [KeyerRuntime.tick, h, hlt]

lemma get_combo_now_set_elapsed (r : KeyerRuntime) (x : ℚ) :
    ({ r with current_element_elapsed_ms := x } :
      KeyerRuntime).get_combo_now = r.get_combo_now := rfl

lemma bonus_element_toList (r : KeyerRuntime) :
    (r.bonus_element_of).toList =
      (if (r.cfg.iambic_mode = IambicMode.B
           ∧ r.squeeze_seen_this_element = true
           ∧ (if r.cfg.squeeze_mode = SqueezeMode.LIVE then r.get_combo_now
              else r.last_valid_combo) ≠ PaddleCombo.BOTH)
       then [if r.current_element = some Element.DIT then Element.DAH
             else Element.DIT]
       else []) := by
  by_cases h1 : r.cfg.iambic_mode = IambicMode.B <;>
    by_cases h2 : r.squeeze_seen_this_element = true <;>
      by_cases h3 : (if r.cfg.squeeze_mode = SqueezeMode.LIVE
          then r.get_combo_now else r.last_valid_combo) ≠ PaddleCombo.BOTH <;>
        simp [KeyerRuntime.bonus_element_of, h1, h2, h3]

/-- Claim C1: at element completion a bonus element (the opposite of the
one just sent) is appended exactly when `iambic_mode = B`,
`squeeze_seen_this_element` holds and the reference combo (live combo
under LIVE, `last_valid_combo` under SNAPSHOT) is not BOTH; in Mode A the
queue only receives the memory-latched elements, never a bonus. -/
theorem bonus_element_policy_at_completion (r : KeyerRuntime) (dt : ℚ)
    (hs : r.state = State.SEND_DIT ∨ r.state = State.SEND_DAH)
    (hend : r.current_element_total_ms ≤ r.current_element_elapsed_ms + dt) :
    (r.tick dt).queue =
      r.queue ++ (if r.dot_requested then [Element.DIT] else [])
        ++ (if r.dah_requested then [Element.DAH] else [])
        ++ (if (r.cfg.iambic_mode = IambicMode.B
               ∧ r.squeeze_seen_this_element = true
               ∧ (if r.cfg.squeeze_mode = SqueezeMode.LIVE then r.get_combo_now
                  else r.last_valid_combo) ≠ PaddleCombo.BOTH)
            then [if r.current_element = some Element.DIT then Element.DAH
                  else Element.DIT]
            else [])
    ∧ (r.cfg.iambic_mode = IambicMode.A →
        (r.tick dt).queue =
          r.queue ++ (if r.dot_requested then [Element.DIT] else [])
            ++ (if r.dah_requested then [Element.DAH] else [])) := by
  rw [tick_send_finish r dt hs hend]
  constructor
  · rw [finish_queue_eq, bonus_element_toList]
    simp [get_combo_now_set_elapsed]
  · intro hA
    rw [finish_queue_eq, bonus_element_toList]
    simp [hA]

/-- Claim C3: at element completion the queue receives, in order, DIT if
`dot_requested` (flag cleared), then DAH if `dah_requested` (flag
cleared), then the Mode-B bonus last, so memory-latched elements always
precede the bonus. -/
theorem memory_before_bonus_enqueue_order (r : KeyerRuntime) (dt : ℚ)
    (hs : r.state = State.SEND_DIT ∨ r.state = State.SEND_DAH)
    (hend : r.current_element_total_ms ≤ r.current_element_elapsed_ms + dt) :
    (r.tick dt).queue =
      r.queue ++ (if r.dot_requested then [Element.DIT] else [])
        ++ (if r.dah_requested then [Element.DAH] else [])
        ++ (if (r.cfg.iambic_mode = IambicMode.B
               ∧ r.squeeze_seen_this_element = true
               ∧ (if r.cfg.squeeze_mode = SqueezeMode.LIVE then r.get_combo_now
                  else r.last_valid_combo) ≠ PaddleCombo.BOTH)
            then [if r.current_element = some Element.DIT then Element.DAH
                  else Element.DIT]
            else [])
    ∧ (r.tick dt).dot_requested = false
    ∧ (r.tick dt).dah_requested = false := by
  rw [tick_send_finish r dt hs hend]
  refine ⟨?_, finish_dot _, finish_dah _⟩
  rw [finish_queue_eq, bonus_element_toList]
  simp [get_combo_now_set_elapsed]


def c1run : KeyerRuntime :=
  { cfg := cfgLiveB, state := State.SEND_DIT,
    current_element := some Element.DIT,
    current_element_total_ms := 60, current_element_elapsed_ms := 0,
    gap_total_ms := 0, gap_elapsed_ms := 0, element_progress_pct := 0,
    queue := [], dot_requested := true, dah_requested := true,
    dit_pressed := false, dah_pressed := false,
    squeeze_seen_this_element := true, last_valid_combo := PaddleCombo.NONE }

/-- Witness for C1: completing a DIT with both latches set, a squeeze seen
and the paddles released (Mode B, LIVE) enqueues DIT, DAH, then the DAH
bonus. -/
theorem bonus_element_policy_at_completion_witness :
    c1run.state = State.SEND_DIT ∧
    c1run.current_element_total_ms ≤ c1run.current_element_elapsed_ms + 60 ∧
    (c1run.tick 60).queue = [Element.DIT, Element.DAH, Element.DAH] :=
  ⟨rfl, by simp [c1run],
    ((bonus_element_policy_at_completion c1run 60 (Or.inl rfl)
        (by simp [c1run])).1).trans (by decide)⟩

def c3run : KeyerRuntime :=
  { cfg := cfgLiveB, state := State.SEND_DAH,
    current_element := some Element.DAH,
    current_element_total_ms := 180, current_element_elapsed_ms := 0,
    gap_total_ms := 0, gap_elapsed_ms := 0, element_progress_pct := 0,
    queue := [], dot_requested := true, dah_requested := false,
    dit_pressed := false, dah_pressed := false,
    squeeze_seen_this_element := true, last_valid_combo := PaddleCombo.NONE }

/-- Witness for C3: completing a DAH with the dot latch set and a released
squeeze (Mode B, LIVE) enqueues the memory DIT before the DIT bonus, and
both latches end cleared. -/
theorem memory_before_bonus_enqueue_order_witness :
    c3run.current_element_total_ms ≤ c3run.current_element_elapsed_ms + 180 ∧
    (c3run.tick 180).queue = [Element.DIT, Element.DIT] ∧
    (c3run.tick 180).dot_requested = false ∧
    (c3run.tick 180).dah_requested = false :=
  ⟨by simp [c3run],
    ((memory_before_bonus_enqueue_order c3run 180 (Or.inr rfl)
        (by simp [c3run])).1).trans (by decide),
    (memory_before_bonus_enqueue_order c3run 180 (Or.inr rfl)
        (by simp [c3run])).2.1,
    (memory_before_bonus_enqueue_order c3run 180 (Or.inr rfl)
        (by simp [c3run])).2.2⟩

set_option maxHeartbeats 1000000 in
lemma check_memory_squeeze_iff (r : KeyerRuntime) :
    ((r.check_memory_and_squeeze_during_element).squeeze_seen_this_element
        = true
      ↔ (r.squeeze_seen_this_element = true
         ∨ r.get_combo_now = PaddleCombo.BOTH)) := by
  simp only [KeyerRuntime.check_memory_and_squeeze_during_element]
  split_ifs <;> simp_all [KeyerRuntime.get_combo_now]

set_option maxHeartbeats 1600000 in
lemma check_memory_dah_iff (r : KeyerRuntime) :
    ((r.check_memory_and_squeeze_during_element).dah_requested = true
      ↔ (r.dah_requested = true
         ∨ (r.state = State.SEND_DIT
            ∧ (r.get_combo_now = PaddleCombo.DAH_ONLY
               ∨ r.get_combo_now = PaddleCombo.BOTH)
            ∧ (r.cfg.memory_mode = MemoryMode.DAH_ONLY
               ∨ r.cfg.memory_mode = MemoryMode.DOT_AND_DAH)
            ∧ r.cfg.mem_block_start_pct ≤
                (if r.current_element_total_ms > 0 then
                  100 * r.current_element_elapsed_ms /
                    r.current_element_total_ms
                 else 0)
            ∧ (if r.current_element_total_ms > 0 then
                  100 * r.current_element_elapsed_ms /
                    r.current_element_total_ms
               else 0) ≤ 100 - r.cfg.mem_block_end_pct))) := by
  simp only [KeyerRuntime.check_memory_and_squeeze_during_element]
  split_ifs <;> simp_all [KeyerRuntime.get_combo_now]

set_option maxHeartbeats 1600000 in
lemma check_memory_dot_iff (r : KeyerRuntime) :
    ((r.check_memory_and_squeeze_during_element).dot_requested = true
      ↔ (r.dot_requested = true
         ∨ (r.state = State.SEND_DAH
            ∧ (r.get_combo_now = PaddleCombo.DIT_ONLY
               ∨ r.get_combo_now = PaddleCombo.BOTH)
            ∧ (r.cfg.memory_mode = MemoryMode.DOT_ONLY
               ∨ r.cfg.memory_mode = MemoryMode.DOT_AND_DAH)
            ∧ r.cfg.mem_block_start_pct ≤
                (if r.current_element_total_ms > 0 then
                  100 * r.current_element_elapsed_ms /
                    r.current_element_total_ms
                 else 0)
            ∧ (if r.current_element_total_ms > 0 then
                  100 * r.current_element_elapsed_ms /
                    r.current_element_total_ms
               else 0) ≤ 100 - r.cfg.mem_block_end_pct))) := by
  simp only [KeyerRuntime.check_memory_and_squeeze_during_element]
  split_ifs <;> simp_all [KeyerRuntime.get_combo_now]

/-- Claim C4: on a mid-element tick, a squeeze (combo BOTH) always sets
`squeeze_seen_this_element` independently of window and memory mode, while
the opposite-paddle latch is set exactly when the memory mode permits it,
the combo requests it, and the recomputed progress percentage lies inside
`[mem_block_start_pct, 100 - mem_block_end_pct]`. -/
theorem during_element_squeeze_and_memory_window (r : KeyerRuntime)
    (dt : ℚ)
    (hs : r.state = State.SEND_DIT ∨ r.state = State.SEND_DAH)
    (hlt : r.current_element_elapsed_ms + dt < r.current_element_total_ms) :
    ((r.tick dt).squeeze_seen_this_element = true
      ↔ (r.squeeze_seen_this_element = true
         ∨ r.get_combo_now = PaddleCombo.BOTH))
    ∧ ((r.tick dt).dah_requested = true
      ↔ (r.dah_requested = true
         ∨ (r.state = State.SEND_DIT
            ∧ (r.get_combo_now = PaddleCombo.DAH_ONLY
               ∨ r.get_combo_now = PaddleCombo.BOTH)
            ∧ (r.cfg.memory_mode = MemoryMode.DAH_ONLY
               ∨ r.cfg.memory_mode = MemoryMode.DOT_AND_DAH)
            ∧ r.cfg.mem_block_start_pct ≤
                (if r.current_element_total_ms > 0 then
                  100 * (r.current_element_elapsed_ms + dt) /
                    r.current_element_total_ms
                 else 0)
            ∧ (if r.current_element_total_ms > 0 then
                  100 * (r.current_element_elapsed_ms + dt) /
                    r.current_element_total_ms
               else 0) ≤ 100 - r.cfg.mem_block_end_pct)))
    ∧ ((r.tick dt).dot_requested = true
      ↔ (r.dot_requested = true
         ∨ (r.state = State.SEND_DAH
            ∧ (r.get_combo_now = PaddleCombo.DIT_ONLY
               ∨ r.get_combo_now = PaddleCombo.BOTH)
            ∧ (r.cfg.memory_mode = MemoryMode.DOT_ONLY
               ∨ r.cfg.memory_mode = MemoryMode.DOT_AND_DAH)
            ∧ r.cfg.mem_block_start_pct ≤
                (if r.current_element_total_ms > 0 then
                  100 * (r.current_element_elapsed_ms + dt) /
                    r.current_element_total_ms
                 else 0)
            ∧ (if r.current_element_total_ms > 0 then
                  100 * (r.current_element_elapsed_ms + dt) /
                    r.current_element_total_ms
               else 0) ≤ 100 - r.cfg.mem_block_end_pct))) := by
  rw [tick_send_continue r dt hs hlt]
  refine ⟨?_, ?_, ?_⟩
  · rw [check_memory_squeeze_iff]
    simp [get_combo_now_set_elapsed]
  · rw [check_memory_dah_iff]
    simp [get_combo_now_set_elapsed]
  · rw [check_memory_dot_iff]
    simp [get_combo_now_set_elapsed]

def c4run (el : ℚ) : KeyerRuntime :=
  { cfg := cfgLiveB, state := State.SEND_DIT,
    current_element := some Element.DIT,
    current_element_total_ms := 100, current_element_elapsed_ms := el,
    gap_total_ms := 0, gap_elapsed_ms := 0, element_progress_pct := 0,
    queue := [], dot_requested := false, dah_requested := false,
    dit_pressed := false, dah_pressed := true,
    squeeze_seen_this_element := false, last_valid_combo := PaddleCombo.NONE }

lemma qpct10 : (100 : ℚ) * 10 / 100 = 10 := by norm_num

lemma qpct50 : (100 : ℚ) * 50 / 100 = 50 := by norm_num

lemma qpct90 : (100 : ℚ) * 90 / 100 = 90 := by norm_num

lemma qsub15 : (100 : ℚ) - 15 = 85 := by norm_num

lemma q0lt100 : (0 : ℚ) < 100 := by norm_num

lemma q15nle10 : ¬ ((15 : ℚ) ≤ 10) := by norm_num

lemma q15le50 : (15 : ℚ) ≤ 50 := by norm_num

lemma q50le85 : (50 : ℚ) ≤ 85 := by norm_num

lemma q90nle85 : ¬ ((90 : ℚ) ≤ 85) := by norm_num

/-- Witness for C4: with the 15/15 dead zones, a dah press during a DIT at
10 % or 90 % progress latches nothing, while the same press at 50 %
latches DAH. -/
theorem during_element_squeeze_and_memory_window_witness :
    ((c4run 10).tick 0).dah_requested = false
    ∧ ((c4run 50).tick 0).dah_requested = true
    ∧ ((c4run 90).tick 0).dah_requested = false := by
  have h10 := (during_element_squeeze_and_memory_window (c4run 10) 0
    (Or.inl rfl) (by simp [c4run]; decide)).2.1
  have h50 := (during_element_squeeze_and_memory_window (c4run 50) 0
    (Or.inl rfl) (by simp [c4run]; decide)).2.1
  have h90 := (during_element_squeeze_and_memory_window (c4run 90) 0
    (Or.inl rfl) (by simp [c4run]; decide)).2.1
  refine ⟨?_, ?_, ?_⟩
  · simp [c4run, cfgLiveB, KeyerConfig.make, KeyerRuntime.get_combo_now,
      qpct10, qsub15, q0lt100, q15nle10] at h10 ⊢
    exact h10
  · simp [c4run, cfgLiveB, KeyerConfig.make, KeyerRuntime.get_combo_now,
      qpct50, qsub15, q0lt100, q15le50, q50le85] at h50 ⊢
    exact h50
  · simp [c4run, cfgLiveB, KeyerConfig.make, KeyerRuntime.get_combo_now,
      qpct90, qsub15, q0lt100, q90nle85] at h90 ⊢
    exact h90


lemma get_combo_now_set_gap_queue (r : KeyerRuntime) (st : State) (x : ℚ)
    (q : List Element) :
    ({ r with state := st, gap_elapsed_ms := x, queue := q } :
      KeyerRuntime).get_combo_now = r.get_combo_now := rfl

lemma get_combo_now_set_gap (r : KeyerRuntime) (st : State) (x : ℚ) :
    ({ r with state := st, gap_elapsed_ms := x } :
      KeyerRuntime).get_combo_now = r.get_combo_now := rfl

/-- Claim C2: when a tick ends the inter-element gap, a non-empty queue is
served first (FIFO head, ignoring paddle state); with an empty queue the
next element comes from the live combo (DIT_ONLY → DIT, DAH_ONLY → DAH,
BOTH → the opposite of the element just completed, NONE → clean return to
IDLE). -/
theorem gap_end_scheduling (r : KeyerRuntime) (dt : ℚ)
    (hs : r.state = State.INTER_ELEMENT_GAP)
    (hge : r.gap_total_ms ≤ r.gap_elapsed_ms + dt) :
    (∀ e rest, r.queue = e :: rest →
      r.tick dt =
        ({ r with gap_elapsed_ms := r.gap_elapsed_ms + dt, queue := rest } :
          KeyerRuntime).start_element e)
    ∧ (r.queue = [] → r.get_combo_now = PaddleCombo.DIT_ONLY →
      r.tick dt =
        ({ r with gap_elapsed_ms := r.gap_elapsed_ms + dt } :
          KeyerRuntime).start_element Element.DIT)
    ∧ (r.queue = [] → r.get_combo_now = PaddleCombo.DAH_ONLY →
      r.tick dt =
        ({ r with gap_elapsed_ms := r.gap_elapsed_ms + dt } :
          KeyerRuntime).start_element Element.DAH)
    ∧ (r.queue = [] → r.get_combo_now = PaddleCombo.BOTH →
      ∀ e, r.current_element = some e →
        r.tick dt =
          ({ r with gap_elapsed_ms := r.gap_elapsed_ms + dt } :
            KeyerRuntime).start_element
            (if e = Element.DIT then Element.DAH else Element.DIT))
    ∧ (r.queue = [] → r.get_combo_now = PaddleCombo.NONE →
      r.tick dt =
        { r with state := State.IDLE
                 current_element := none
                 current_element_total_ms := 0
                 current_element_elapsed_ms := 0
                 gap_total_ms := 0
                 gap_elapsed_ms := 0
                 element_progress_pct := 0
                 squeeze_seen_this_element := false
                 queue := [] }) := by
  have hnl : ¬ (r.gap_elapsed_ms + dt < r.gap_total_ms) := not_lt.mpr hge
  refine ⟨?_, ?_, ?_, ?_, ?_⟩
  · intro e rest hq
    simp [KeyerRuntime.tick, hs, hnl, hq, get_combo_now_set_gap_queue, get_combo_now_set_gap]
  · intro hq hc
    simp [KeyerRuntime.tick, hs, hnl, hq, hc, get_combo_now_set_gap_queue, get_combo_now_set_gap]
  · intro hq hc
    simp [KeyerRuntime.tick, hs, hnl, hq, hc, get_combo_now_set_gap_queue, get_combo_now_set_gap]
  · intro hq hc e he
    cases e
    all_goals
      (simp [KeyerRuntime.tick, hs, hnl, hq, hc,
         get_combo_now_set_gap_queue, get_combo_now_set_gap]
       simp [he])
  · intro hq hc
    simp [KeyerRuntime.tick, hs, hnl, hq, hc, get_combo_now_set_gap_queue, get_combo_now_set_gap]


def c2run : KeyerRuntime :=
  { cfg := cfgLiveB, state := State.INTER_ELEMENT_GAP,
    current_element := some Element.DIT,
    current_element_total_ms := 60, current_element_elapsed_ms := 60,
    gap_total_ms := 60, gap_elapsed_ms := 0, element_progress_pct := 0,
    queue := [Element.DAH], dot_requested := false, dah_requested := false,
    dit_pressed := true, dah_pressed := false,
    squeeze_seen_this_element := false,
    last_valid_combo := PaddleCombo.DIT_ONLY }

/-- Witness for C2: a gap-ending tick with DAH queued and the dit paddle
held dequeues the DAH (the paddle is ignored while the queue is
non-empty). -/
theorem gap_end_scheduling_witness :
    c2run.state = State.INTER_ELEMENT_GAP ∧
    c2run.gap_total_ms ≤ c2run.gap_elapsed_ms + 60 ∧
    c2run.queue = [Element.DAH] ∧
    c2run.get_combo_now = PaddleCombo.DIT_ONLY ∧
    (c2run.tick 60).current_element = some Element.DAH ∧
    (c2run.tick 60).queue = [] := by
  refine ⟨rfl, by simp [c2run], rfl, rfl, ?_, ?_⟩
  · rw [(gap_end_scheduling c2run 60 rfl (by simp [c2run])).1
      Element.DAH [] rfl]
    rfl
  · rw [(gap_end_scheduling c2run 60 rfl (by simp [c2run])).1
      Element.DAH [] rfl]
    rfl

lemma update_paddles_cfg (r : KeyerRuntime) (dit dah : Bool) :
    (r.update_paddles dit dah).cfg = r.cfg := by
  simp only [KeyerRuntime.update_paddles]
  split_ifs <;> rfl

lemma update_paddles_state (r : KeyerRuntime) (dit dah : Bool) :
    (r.update_paddles dit dah).state = r.state := by
  simp only [KeyerRuntime.update_paddles]
  split_ifs <;> rfl

lemma update_paddles_dot (r : KeyerRuntime) (dit dah : Bool) :
    (r.update_paddles dit dah).dot_requested = r.dot_requested := by
  simp only [KeyerRuntime.update_paddles]
  split_ifs <;> rfl

lemma update_paddles_dah (r : KeyerRuntime) (dit dah : Bool) :
    (r.update_paddles dit dah).dah_requested = r.dah_requested := by
  simp only [KeyerRuntime.update_paddles]
  split_ifs <;> rfl

lemma update_paddles_queue (r : KeyerRuntime) (dit dah : Bool) :
    (r.update_paddles dit dah).queue = r.queue := by
  simp only [KeyerRuntime.update_paddles]
  split_ifs <;> rfl

lemma start_element_cfg (r : KeyerRuntime) (e : Element) :
    (r.start_element e).cfg = r.cfg := by
  cases e <;> rfl

lemma start_element_dot (r : KeyerRuntime) (e : Element) :
    (r.start_element e).dot_requested = r.dot_requested := by
  cases e <;> rfl

lemma start_element_dah (r : KeyerRuntime) (e : Element) :
    (r.start_element e).dah_requested = r.dah_requested := by
  cases e <;> rfl

lemma start_element_state (r : KeyerRuntime) (e : Element) :
    (r.start_element e).state = State.SEND_DIT
    ∨ (r.start_element e).state = State.SEND_DAH := by
  cases e
  · exact Or.inl rfl
  · exact Or.inr rfl

lemma check_memory_cfg (r : KeyerRuntime) :
    (r.check_memory_and_squeeze_during_element).cfg = r.cfg := by
  simp only [KeyerRuntime.check_memory_and_squeeze_during_element]
  split_ifs <;> rfl

lemma check_memory_state (r : KeyerRuntime) :
    (r.check_memory_and_squeeze_during_element).state = r.state := by
  simp only [KeyerRuntime.check_memory_and_squeeze_during_element]
  split_ifs <;> rfl

lemma check_memory_queue (r : KeyerRuntime) :
    (r.check_memory_and_squeeze_during_element).queue = r.queue := by
  simp only [KeyerRuntime.check_memory_and_squeeze_during_element]
  split_ifs <;> rfl

lemma finish_state (r : KeyerRuntime) :
    (r.finish_element_and_enter_gap).state = State.INTER_ELEMENT_GAP := by
  cases hdot : r.dot_requested <;> cases hdah : r.dah_requested <;>
    cases hb : r.bonus_element_of <;>
      simp [KeyerRuntime.finish_element_and_enter_gap, KeyerRuntime.start_gap,
        hdot, hdah, hb]

lemma finish_cfg (r : KeyerRuntime) :
    (r.finish_element_and_enter_gap).cfg = r.cfg := by
  cases hdot : r.dot_requested <;> cases hdah : r.dah_requested <;>
    cases hb : r.bonus_element_of <;>
      simp [KeyerRuntime.finish_element_and_enter_gap, KeyerRuntime.start_gap,
        hdot, hdah, hb]

lemma tick_idle_eq (r : KeyerRuntime) (dt : ℚ) (hs : r.state = State.IDLE) :
    r.tick dt =
      (if r.get_combo_now = PaddleCombo.DIT_ONLY then
        r.start_element Element.DIT
      else if r.get_combo_now = PaddleCombo.DAH_ONLY then
        r.start_element Element.DAH
      else if r.get_combo_now = PaddleCombo.BOTH then
        r.start_element Element.DIT
      else r) := by
  simp [KeyerRuntime.tick, hs]

lemma tick_gap_wait (r : KeyerRuntime) (dt : ℚ)
    (hs : r.state = State.INTER_ELEMENT_GAP)
    (hlt : r.gap_elapsed_ms + dt < r.gap_total_ms) :
    r.tick dt = { r with gap_elapsed_ms := r.gap_elapsed_ms + dt } := by
  simp [KeyerRuntime.tick, hs, hlt]

lemma tick_gap_pop (r : KeyerRuntime) (dt : ℚ)
    (hs : r.state = State.INTER_ELEMENT_GAP)
    (hge : r.gap_total_ms ≤ r.gap_elapsed_ms + dt)
    (e : Element) (rest : List Element) (hq : r.queue = e :: rest) :
    r.tick dt =
      ({ r with gap_elapsed_ms := r.gap_elapsed_ms + dt, queue := rest } :
        KeyerRuntime).start_element e := by
  simp [KeyerRuntime.tick, hs, not_lt.mpr hge, hq]

lemma tick_gap_dit (r : KeyerRuntime) (dt : ℚ)
    (hs : r.state = State.INTER_ELEMENT_GAP)
    (hge : r.gap_total_ms ≤ r.gap_elapsed_ms + dt)
    (hq : r.queue = []) (hc : r.get_combo_now = PaddleCombo.DIT_ONLY) :
    r.tick dt =
      ({ r with gap_elapsed_ms := r.gap_elapsed_ms + dt } :
        KeyerRuntime).start_element Element.DIT := by
  simp [KeyerRuntime.tick, hs, not_lt.mpr hge, hq, hc,
    get_combo_now_set_gap_queue, get_combo_now_set_gap]

lemma tick_gap_dah (r : KeyerRuntime) (dt : ℚ)
    (hs : r.state = State.INTER_ELEMENT_GAP)
    (hge : r.gap_total_ms ≤ r.gap_elapsed_ms + dt)
    (hq : r.queue = []) (hc : r.get_combo_now = PaddleCombo.DAH_ONLY) :
    r.tick dt =
      ({ r with gap_elapsed_ms := r.gap_elapsed_ms + dt } :
        KeyerRuntime).start_element Element.DAH := by
  simp [KeyerRuntime.tick, hs, not_lt.mpr hge, hq, hc,
    get_combo_now_set_gap_queue, get_combo_now_set_gap]

lemma tick_gap_both (r : KeyerRuntime) (dt : ℚ)
    (hs : r.state = State.INTER_ELEMENT_GAP)
    (hge : r.gap_total_ms ≤ r.gap_elapsed_ms + dt)
    (hq : r.queue = []) (hc : r.get_combo_now = PaddleCombo.BOTH) :
    r.tick dt =
      ({ r with gap_elapsed_ms := r.gap_elapsed_ms + dt } :
        KeyerRuntime).start_element
        (if r.current_element = some Element.DIT then Element.DAH
         else Element.DIT) := by
  simp [KeyerRuntime.tick, hs, not_lt.mpr hge, hq, hc,
    get_combo_now_set_gap_queue, get_combo_now_set_gap]

lemma tick_gap_reset (r : KeyerRuntime) (dt : ℚ)
    (hs : r.state = State.INTER_ELEMENT_GAP)
    (hge : r.gap_total_ms ≤ r.gap_elapsed_ms + dt)
    (hq : r.queue = []) (hc : r.get_combo_now = PaddleCombo.NONE) :
    r.tick dt =
      { r with state := State.IDLE
               current_element := none
               current_element_total_ms := 0
               current_element_elapsed_ms := 0
               gap_total_ms := 0
               gap_elapsed_ms := 0
               element_progress_pct := 0
               squeeze_seen_this_element := false
               queue := [] } := by
  simp [KeyerRuntime.tick, hs, not_lt.mpr hge, hq, hc,
    get_combo_now_set_gap_queue, get_combo_now_set_gap]

lemma tick_cfg (r : KeyerRuntime) (dt : ℚ) :
    (r.tick dt).cfg = r.cfg := by
  cases hst : r.state with
  | IDLE =>
    rw [tick_idle_eq r dt hst]
    split_ifs <;> first | rw [start_element_cfg] | rfl
  | SEND_DIT =>
    by_cases hlt : r.current_element_elapsed_ms + dt <
        r.current_element_total_ms
    · rw [tick_send_continue r dt (Or.inl hst) hlt, check_memory_cfg]
    · rw [tick_send_finish r dt (Or.inl hst) (not_lt.mp hlt), finish_cfg]
  | SEND_DAH =>
    by_cases hlt : r.current_element_elapsed_ms + dt <
        r.current_element_total_ms
    · rw [tick_send_continue r dt (Or.inr hst) hlt, check_memory_cfg]
    · rw [tick_send_finish r dt (Or.inr hst) (not_lt.mp hlt), finish_cfg]
  | INTER_ELEMENT_GAP =>
    by_cases hlt : r.gap_elapsed_ms + dt < r.gap_total_ms
    · rw [tick_gap_wait r dt hst hlt]
    · cases hq : r.queue with
      | cons e rest =>
        rw [tick_gap_pop r dt hst (not_lt.mp hlt) e rest hq,
          start_element_cfg]
      | nil =>
        cases hc : r.get_combo_now with
        | DIT_ONLY =>
          rw [tick_gap_dit r dt hst (not_lt.mp hlt) hq hc, start_element_cfg]
        | DAH_ONLY =>
          rw [tick_gap_dah r dt hst (not_lt.mp hlt) hq hc, start_element_cfg]
        | BOTH =>
          rw [tick_gap_both r dt hst (not_lt.mp hlt) hq hc, start_element_cfg]
        | NONE =>
          rw [tick_gap_reset r dt hst (not_lt.mp hlt) hq hc]

/-- Runtimes reachable from a freshly-constructed runtime by any
interleaving of `tick` (with non-negative `dt_ms`) and `update_paddles`
calls. -/
inductive Reachable (cfg : KeyerConfig) : KeyerRuntime → Prop where
  | base : Reachable cfg (KeyerRuntime.init cfg)
  | tick_step (r : KeyerRuntime) (dt : ℚ) (hdt : 0 ≤ dt)
      (h : Reachable cfg r) : Reachable cfg (r.tick dt)
  | paddle_step (r : KeyerRuntime) (dit dah : Bool)
      (h : Reachable cfg r) : Reachable cfg (r.update_paddles dit dah)

lemma reachable_cfg (cfg : KeyerConfig) :
    ∀ r, Reachable cfg r → r.cfg = cfg := by
  intro r h
  induction h with
  | base => rfl
  | tick_step r dt hdt h ih => rw [tick_cfg, ih]
  | paddle_step r dit dah h ih => rw [update_paddles_cfg, ih]


lemma combo_none_pressed (r : KeyerRuntime)
    (hc : r.get_combo_now = PaddleCombo.NONE) :
    r.dit_pressed = false ∧ r.dah_pressed = false := by
  cases hd : r.dit_pressed <;> cases hh : r.dah_pressed <;>
    simp_all [KeyerRuntime.get_combo_now]

lemma tick_latch_preserved (r : KeyerRuntime) (dt : ℚ)
    (hP : (r.state = State.IDLE ∨ r.state = State.INTER_ELEMENT_GAP) →
      r.dot_requested = false ∧ r.dah_requested = false) :
    ((r.tick dt).state = State.IDLE
      ∨ (r.tick dt).state = State.INTER_ELEMENT_GAP) →
      (r.tick dt).dot_requested = false
      ∧ (r.tick dt).dah_requested = false := by
  cases hst : r.state with
  | IDLE =>
    rw [tick_idle_eq r dt hst]
    split_ifs <;> intro hends
    · rcases start_element_state r Element.DIT with h | h <;>
        rw [h] at hends <;> simp at hends
    · rcases start_element_state r Element.DAH with h | h <;>
        rw [h] at hends <;> simp at hends
    · rcases start_element_state r Element.DIT with h | h <;>
        rw [h] at hends <;> simp at hends
    · exact hP (Or.inl hst)
  | SEND_DIT =>
    by_cases hlt : r.current_element_elapsed_ms + dt <
        r.current_element_total_ms
    · rw [tick_send_continue r dt (Or.inl hst) hlt]
      intro hends
      rw [check_memory_state] at hends
      simp [hst] at hends
    · rw [tick_send_finish r dt (Or.inl hst) (not_lt.mp hlt)]
      exact fun _ => ⟨finish_dot _, finish_dah _⟩
  | SEND_DAH =>
    by_cases hlt : r.current_element_elapsed_ms + dt <
        r.current_element_total_ms
    · rw [tick_send_continue r dt (Or.inr hst) hlt]
      intro hends
      rw [check_memory_state] at hends
      simp [hst] at hends
    · rw [tick_send_finish r dt (Or.inr hst) (not_lt.mp hlt)]
      exact fun _ => ⟨finish_dot _, finish_dah _⟩
  | INTER_ELEMENT_GAP =>
    by_cases hlt : r.gap_elapsed_ms + dt < r.gap_total_ms
    · rw [tick_gap_wait r dt hst hlt]
      exact fun _ => hP (Or.inr hst)
    · cases hq : r.queue with
      | cons e rest =>
        rw [tick_gap_pop r dt hst (not_lt.mp hlt) e rest hq]
        intro hends
        rcases start_element_state _ e with h | h <;>
          rw [h] at hends <;> simp at hends
      | nil =>
        cases hc : r.get_combo_now with
        | DIT_ONLY =>
          rw [tick_gap_dit r dt hst (not_lt.mp hlt) hq hc]
          intro hends
          rcases start_element_state _ Element.DIT with h | h <;>
            rw [h] at hends <;> simp at hends
        | DAH_ONLY =>
          rw [tick_gap_dah r dt hst (not_lt.mp hlt) hq hc]
          intro hends
          rcases start_element_state _ Element.DAH with h | h <;>
            rw [h] at hends <;> simp at hends
        | BOTH =>
          rw [tick_gap_both r dt hst (not_lt.mp hlt) hq hc]
          intro hends
          rcases start_element_state _
              (if r.current_element = some Element.DIT then Element.DAH
               else Element.DIT) with h | h <;>
            rw [h] at hends <;> simp at hends
        | NONE =>
          rw [tick_gap_reset r dt hst (not_lt.mp hlt) hq hc]
          exact fun _ => hP (Or.inr hst)

lemma tick_latch_none (r : KeyerRuntime) (dt : ℚ)
    (hmm : r.cfg.memory_mode = MemoryMode.NONE)
    (hdot : r.dot_requested = false) (hdah : r.dah_requested = false) :
    (r.tick dt).dot_requested = false
    ∧ (r.tick dt).dah_requested = false := by
  cases hst : r.state with
  | IDLE =>
    rw [tick_idle_eq r dt hst]
    split_ifs <;>
      simp [start_element_dot, start_element_dah, hdot, hdah]
  | SEND_DIT =>
    by_cases hlt : r.current_element_elapsed_ms + dt <
        r.current_element_total_ms
    · rw [tick_send_continue r dt (Or.inl hst) hlt]
      constructor
      · have h := check_memory_dot_iff
          ({ r with current_element_elapsed_ms :=
              r.current_element_elapsed_ms + dt } : KeyerRuntime)
        simp [hmm, hdot] at h ⊢
        exact h
      · have h := check_memory_dah_iff
          ({ r with current_element_elapsed_ms :=
              r.current_element_elapsed_ms + dt } : KeyerRuntime)
        simp [hmm, hdah] at h ⊢
        exact h
    · rw [tick_send_finish r dt (Or.inl hst) (not_lt.mp hlt)]
      exact ⟨finish_dot _, finish_dah _⟩
  | SEND_DAH =>
    by_cases hlt : r.current_element_elapsed_ms + dt <
        r.current_element_total_ms
    · rw [tick_send_continue r dt (Or.inr hst) hlt]
      constructor
      · have h := check_memory_dot_iff
          ({ r with current_element_elapsed_ms :=
              r.current_element_elapsed_ms + dt } : KeyerRuntime)
        simp [hmm, hdot] at h ⊢
        exact h
      · have h := check_memory_dah_iff
          ({ r with current_element_elapsed_ms :=
              r.current_element_elapsed_ms + dt } : KeyerRuntime)
        simp [hmm, hdah] at h ⊢
        exact h
    · rw [tick_send_finish r dt (Or.inr hst) (not_lt.mp hlt)]
      exact ⟨finish_dot _, finish_dah _⟩
  | INTER_ELEMENT_GAP =>
    by_cases hlt : r.gap_elapsed_ms + dt < r.gap_total_ms
    · rw [tick_gap_wait r dt hst hlt]
      exact ⟨hdot, hdah⟩
    · cases hq : r.queue with
      | cons e rest =>
        rw [tick_gap_pop r dt hst (not_lt.mp hlt) e rest hq]
        simp [start_element_dot, start_element_dah, hdot, hdah]
      | nil =>
        cases hc : r.get_combo_now with
        | DIT_ONLY =>
          rw [tick_gap_dit r dt hst (not_lt.mp hlt) hq hc]
          simp [start_element_dot, start_element_dah, hdot, hdah]
        | DAH_ONLY =>
          rw [tick_gap_dah r dt hst (not_lt.mp hlt) hq hc]
          simp [start_element_dot, start_element_dah, hdot, hdah]
        | BOTH =>
          rw [tick_gap_both r dt hst (not_lt.mp hlt) hq hc]
          simp [start_element_dot, start_element_dah, hdot, hdah]
        | NONE =>
          rw [tick_gap_reset r dt hst (not_lt.mp hlt) hq hc]
          exact ⟨hdot, hdah⟩

lemma reachable_latch_invariant (cfg : KeyerConfig) :
    ∀ r, Reachable cfg r →
      (r.state = State.IDLE ∨ r.state = State.INTER_ELEMENT_GAP) →
      r.dot_requested = false ∧ r.dah_requested = false := by
  intro r h
  induction h with
  | base => exact fun _ => ⟨rfl, rfl⟩
  | tick_step r dt hdt h ih => exact tick_latch_preserved r dt ih
  | paddle_step r dit dah h ih =>
    intro hends
    rw [update_paddles_state] at hends
    rw [update_paddles_dot, update_paddles_dah]
    exact ih hends

lemma reachable_latches_false_of_memory_none (cfg : KeyerConfig)
    (hmm : cfg.memory_mode = MemoryMode.NONE) :
    ∀ r, Reachable cfg r →
      r.dot_requested = false ∧ r.dah_requested = false := by
  intro r h
  induction h with
  | base => exact ⟨rfl, rfl⟩
  | tick_step r dt hdt h ih =>
    refine tick_latch_none r dt ?_ ih.1 ih.2
    rw [reachable_cfg cfg r h]
    exact hmm
  | paddle_step r dit dah h ih =>
    rw [update_paddles_dot, update_paddles_dah]
    exact ih


lemma q1200div20 : (1200 : ℚ) / 20 = 60 := by norm_num

def c9pre : KeyerRuntime :=
  { cfg := cfgSnapA, state := State.INTER_ELEMENT_GAP,
    current_element := some Element.DIT,
    current_element_total_ms := 60, current_element_elapsed_ms := 60,
    gap_total_ms := 60, gap_elapsed_ms := 0, element_progress_pct := 0,
    queue := [], dot_requested := false, dah_requested := false,
    dit_pressed := false, dah_pressed := false,
    squeeze_seen_this_element := false,
    last_valid_combo := PaddleCombo.BOTH }

lemma c9pre_eq :
    ((((KeyerRuntime.init cfgSnapA).update_paddles true true).tick 0
      ).update_paddles false false).tick 60 = c9pre := by
  simp [KeyerRuntime.init, KeyerRuntime.update_paddles, KeyerRuntime.tick,
    KeyerRuntime.start_element, KeyerRuntime.start_gap,
    KeyerRuntime.finish_element_and_enter_gap, KeyerRuntime.bonus_element_of,
    KeyerRuntime.check_memory_and_squeeze_during_element,
    KeyerRuntime.get_combo_now, cfgSnapA, KeyerConfig.make,
    KeyerConfig.dit_duration_ms, KeyerConfig.dah_duration_ms,
    KeyerConfig.gap_duration_ms, c9pre, q1200div20]

lemma c9fin_eq : c9pre.tick 60 =
    { KeyerRuntime.init cfgSnapA with
        last_valid_combo := PaddleCombo.BOTH } := by
  rw [tick_gap_reset c9pre 60 rfl (by simp [c9pre]) rfl rfl]
  simp [c9pre, KeyerRuntime.init, cfgSnapA, KeyerConfig.make]

/-- Counterexample for C9 as stated: a SNAPSHOT session that squeezes from
rest, releases both paddles mid-element and then naturally empties ends in
IDLE with an empty queue, but `last_valid_combo` is still BOTH while a
freshly-constructed runtime has NONE — the reset path never clears it. -/
theorem natural_empty_not_fresh_counterexample :
    c9pre.state = State.INTER_ELEMENT_GAP
    ∧ c9pre.queue = []
    ∧ c9pre.get_combo_now = PaddleCombo.NONE
    ∧ ((((KeyerRuntime.init cfgSnapA).update_paddles true true).tick 0
        ).update_paddles false false).tick 60 = c9pre
    ∧ (c9pre.tick 60).state = State.IDLE
    ∧ (c9pre.tick 60).queue = []
    ∧ (c9pre.tick 60).last_valid_combo = PaddleCombo.BOTH
    ∧ (KeyerRuntime.init cfgSnapA).last_valid_combo = PaddleCombo.NONE
    ∧ c9pre.tick 60 ≠ KeyerRuntime.init cfgSnapA := by
  refine ⟨rfl, rfl, rfl, c9pre_eq, ?_, ?_, ?_, rfl, ?_⟩
  · rw [c9fin_eq]
    try rfl
  · rw [c9fin_eq]
    try rfl
  · rw [c9fin_eq]
    try rfl
  · rw [c9fin_eq]
    intro h
    have h2 := congrArg KeyerRuntime.last_valid_combo h
    simp [KeyerRuntime.init] at h2

/-- Claim C9 (amended): when a reachable runtime's gap expires with an
empty queue and combo NONE, the post-tick runtime equals the
freshly-constructed runtime in every transient field except
`last_valid_combo`, which the reset path leaves untouched. -/
theorem natural_empty_resets_except_last_valid_combo (cfg : KeyerConfig)
    (r : KeyerRuntime) (hr : Reachable cfg r) (dt : ℚ)
    (hs : r.state = State.INTER_ELEMENT_GAP)
    (hge : r.gap_total_ms ≤ r.gap_elapsed_ms + dt)
    (hq : r.queue = []) (hc : r.get_combo_now = PaddleCombo.NONE) :
    r.tick dt =
      { KeyerRuntime.init cfg with
          last_valid_combo := r.last_valid_combo } := by
  have hl := reachable_latch_invariant cfg r hr (Or.inr hs)
  have hcfg := reachable_cfg cfg r hr
  have hp := combo_none_pressed r hc
  rw [tick_gap_reset r dt hs hge hq hc]
  simp [KeyerRuntime.init, hcfg, hl.1, hl.2, hp.1, hp.2]

/-- Witness for the amended C9 on the concrete squeeze-and-release trace:
every transient field is re-initialised while `last_valid_combo` keeps the
snapshot value BOTH. -/
theorem natural_empty_resets_except_last_valid_combo_witness :
    c9pre.state = State.INTER_ELEMENT_GAP
    ∧ c9pre.queue = []
    ∧ c9pre.get_combo_now = PaddleCombo.NONE
    ∧ c9pre.tick 60 =
        { KeyerRuntime.init cfgSnapA with
            last_valid_combo := c9pre.last_valid_combo } := by
  have hr : Reachable cfgSnapA c9pre := by
    rw [← c9pre_eq]
    exact Reachable.tick_step _ 60 (by decide)
      (Reachable.paddle_step _ false false
        (Reachable.tick_step _ 0 le_rfl
          (Reachable.paddle_step _ true true Reachable.base)))
  exact ⟨rfl, rfl, rfl,
    natural_empty_resets_except_last_valid_combo cfgSnapA c9pre hr 60 rfl
      (by simp [c9pre]) rfl rfl⟩

/-- Claim C10: with `memory_mode = NONE` the two memory latches stay false
in every reachable runtime, so an element completion can only append the
Mode-B bonus element to the queue. -/
theorem memory_none_no_latches (cfg : KeyerConfig)
    (hmm : cfg.memory_mode = MemoryMode.NONE)
    (r : KeyerRuntime) (hr : Reachable cfg r) :
    (r.dot_requested = false ∧ r.dah_requested = false)
    ∧ (∀ dt, (r.state = State.SEND_DIT ∨ r.state = State.SEND_DAH) →
        r.current_element_total_ms ≤ r.current_element_elapsed_ms + dt →
        (r.tick dt).queue = r.queue ++
          (if (r.cfg.iambic_mode = IambicMode.B
               ∧ r.squeeze_seen_this_element = true
               ∧ (if r.cfg.squeeze_mode = SqueezeMode.LIVE then
                    r.get_combo_now
                  else r.last_valid_combo) ≠ PaddleCombo.BOTH)
            then [if r.current_element = some Element.DIT then Element.DAH
                  else Element.DIT]
            else [])) := by
  have hl := reachable_latches_false_of_memory_none cfg hmm r hr
  refine ⟨hl, ?_⟩
  intro dt hsend hend
  rw [tick_send_finish r dt hsend hend, finish_queue_eq,
    bonus_element_toList]
  simp [get_combo_now_set_elapsed]
  simp [hl.1, hl.2]

def c10run : KeyerRuntime :=
  { cfg := cfgSnapA, state := State.SEND_DIT,
    current_element := some Element.DIT,
    current_element_total_ms := 60, current_element_elapsed_ms := 0,
    gap_total_ms := 0, gap_elapsed_ms := 0, element_progress_pct := 0,
    queue := [], dot_requested := false, dah_requested := false,
    dit_pressed := true, dah_pressed := false,
    squeeze_seen_this_element := false,
    last_valid_combo := PaddleCombo.NONE }

lemma c10run_eq :
    ((KeyerRuntime.init cfgSnapA).update_paddles true false).tick 0 =
      c10run := by
  simp [KeyerRuntime.init, KeyerRuntime.update_paddles, KeyerRuntime.tick,
    KeyerRuntime.start_element, KeyerRuntime.get_combo_now, cfgSnapA,
    KeyerConfig.make, KeyerConfig.dit_duration_ms, c10run, q1200div20]

/-- Witness for C10: a reachable mid-DIT runtime under `memory_mode = NONE`
has both latches false, and completing the element appends nothing (Mode A,
no squeeze). -/
theorem memory_none_no_latches_witness :
    cfgSnapA.memory_mode = MemoryMode.NONE
    ∧ c10run.dot_requested = false
    ∧ c10run.dah_requested = false
    ∧ (c10run.tick 60).queue = [] := by
  have hr : Reachable cfgSnapA c10run := by
    rw [← c10run_eq]
    exact Reachable.tick_step _ 0 le_rfl
      (Reachable.paddle_step _ true false Reachable.base)
  have h := memory_none_no_latches cfgSnapA rfl c10run hr
  refine ⟨rfl, h.1.1, h.1.2, ?_⟩
  rw [h.2 60 (Or.inl rfl) (by simp [c10run])]
  simp [c10run, cfgSnapA, KeyerConfig.make]

end Keyer
